import Mathlib

/-!
Verification development for the AI travel agent application
(`streamlit_app.py`).  The Python source is shallowly embedded: each tool
function becomes a Lean function, external HTTP calls and the language-model
backend become explicit environment parameters, and the langgraph
orchestration loop becomes a fuel-bounded recursive runner mirroring the
graph built in `initialize_travel_agent`.
-/

/-! ## String normalization: models Python `str.upper().strip()`
(`streamlit_app.py` lines 117-118).  `upperChar` models `str.upper` on the
ASCII range (currency codes are ASCII); `stripList` removes leading and
trailing whitespace like `str.strip`. -/

def upperChar (c : Char) : Char :=
  if 97 ≤ c.toNat ∧ c.toNat ≤ 122 then Char.ofNat (c.toNat - 32) else c

def isSpaceChar (c : Char) : Bool :=
  c == ' ' || c == '\t' || c == '\n' || c == '\r' || c == Char.ofNat 11 || c == Char.ofNat 12

def stripList (l : List Char) : List Char :=
  ((l.dropWhile isSpaceChar).reverse.dropWhile isSpaceChar).reverse

def normalizeCode (s : String) : String :=
  String.mk (stripList (s.data.map upperChar))

/-! ### Idempotence of the normalization -/

theorem toNat_ofNat_valid {n : Nat} (h : n.isValidChar) : (Char.ofNat n).toNat = n := by
  simp only [Char.ofNat, dif_pos h, Char.ofNatAux, Char.toNat]
  simp [UInt32.toNat]

theorem upperChar_idem (c : Char) : upperChar (upperChar c) = upperChar c := by
  unfold upperChar
  by_cases h : 97 ≤ c.toNat ∧ c.toNat ≤ 122
  · have hv : (c.toNat - 32).isValidChar := Or.inl (by omega)
    have ht : (Char.ofNat (c.toNat - 32)).toNat = c.toNat - 32 := toNat_ofNat_valid hv
    rw [if_pos h, ht, if_neg (by omega)]
  · rw [if_neg h, if_neg h]

theorem dropWhile_idem (p : Char → Bool) (l : List Char) :
    List.dropWhile p (List.dropWhile p l) = List.dropWhile p l := by
  induction l with
  | nil => rfl
  | cons a t ih =>
    by_cases h : p a
    · simp [List.dropWhile, h, ih]
    · simp [List.dropWhile, h]

theorem dropWhile_append_singleton (p : Char → Bool) (a : Char) (h : p a = false)
    (xs : List Char) : List.dropWhile p (xs ++ [a]) = List.dropWhile p xs ++ [a] := by
  induction xs with
  | nil => simp [List.dropWhile, h]
  | cons x t ih =>
    by_cases hx : p x
    · simp [List.dropWhile, hx, ih]
    · simp [List.dropWhile, hx]

theorem head_false_of_dropWhile_fix {p : Char → Bool} {a : Char} {t : List Char}
    (h : List.dropWhile p (a :: t) = a :: t) : p a = false := by
  by_cases hp : p a
  · exfalso
    rw [List.dropWhile_cons_of_pos hp] at h
    have := congrArg List.length h
    have hle := (List.dropWhile_sublist (l := t) p).length_le
    simp at this
    omega
  · simpa using hp

theorem stripList_of_fix {p : Char → Bool} :
    ∀ l : List Char, List.dropWhile p l = l →
      ((l.dropWhile p).reverse.dropWhile p).reverse = (l.reverse.dropWhile p).reverse ∧
      List.dropWhile p (l.reverse.dropWhile p).reverse = (l.reverse.dropWhile p).reverse := by
  intro l hfix
  constructor
  · rw [hfix]
  · cases l with
    | nil => rfl
    | cons a t =>
      have ha : p a = false := head_false_of_dropWhile_fix hfix
      have : (a :: t).reverse = t.reverse ++ [a] := by simp
      rw [this, dropWhile_append_singleton p a ha, List.reverse_append]
      simp [List.dropWhile, ha]

theorem stripList_idem (l : List Char) : stripList (stripList l) = stripList l := by
  unfold stripList
  set A := List.dropWhile isSpaceChar l with hA
  have hAfix : List.dropWhile isSpaceChar A = A := by rw [hA]; exact dropWhile_idem _ _
  obtain ⟨h1, h2⟩ := stripList_of_fix A hAfix
  set B := (A.reverse.dropWhile isSpaceChar).reverse with hB
  have hBfix : List.dropWhile isSpaceChar B = B := h2
  rw [hBfix]
  have hBrev : B.reverse = A.reverse.dropWhile isSpaceChar := by rw [hB, List.reverse_reverse]
  rw [hBrev, dropWhile_idem, ← hBrev, List.reverse_reverse]

theorem mem_dropWhile_sub {p : Char → Bool} {x : Char} :
    ∀ {l : List Char}, x ∈ List.dropWhile p l → x ∈ l := by
  intro l
  induction l with
  | nil => intro h; exact absurd h (by simp [List.dropWhile])
  | cons a t ih =>
    intro h
    by_cases hp : p a
    · rw [List.dropWhile_cons_of_pos hp] at h
      exact List.mem_cons_of_mem a (ih h)
    · rwa [List.dropWhile_cons_of_neg hp] at h

theorem mem_stripList_sub {x : Char} {l : List Char} (h : x ∈ stripList l) : x ∈ l := by
  unfold stripList at h
  rw [List.mem_reverse] at h
  have h2 := mem_dropWhile_sub h
  rw [List.mem_reverse] at h2
  exact mem_dropWhile_sub h2

theorem map_fixed {f : Char → Char} :
    ∀ {l : List Char}, (∀ x ∈ l, f x = x) → l.map f = l := by
  intro l
  induction l with
  | nil => intro _; rfl
  | cons a t ih =>
    intro h
    simp only [List.map_cons]
    rw [h a (List.mem_cons_self a t), ih (fun x hx => h x (List.mem_cons_of_mem a hx))]

theorem normalizeCode_idem (s : String) : normalizeCode (normalizeCode s) = normalizeCode s := by
  unfold normalizeCode
  congr 1
  have hdata : (String.mk (stripList (s.data.map upperChar))).data
      = stripList (s.data.map upperChar) := rfl
  rw [hdata]
  have hfixed : (stripList (s.data.map upperChar)).map upperChar
      = stripList (s.data.map upperChar) := by
    apply map_fixed
    intro x hx
    have hx2 := mem_stripList_sub hx
    obtain ⟨y, _, hy⟩ := List.mem_map.mp hx2
    rw [← hy]
    exact upperChar_idem y
  rw [hfixed, stripList_idem]

/-! ## Fixed-point decimal rendering: models Python f-string `{x:.4f}` and
`{x:.2f}` formatting, with JSON numbers embedded as rationals.  `n` is
`|q| * 10 ^ prec` rounded to the nearest integer, computed on the reduced
numerator and denominator (`⌊(2 * |num| * 10 ^ prec + den) / (2 * den)⌋`,
i.e. round-half-up); the claims below never evaluate a tie, so the
difference from float round-half-even is not observable here. -/

def fmtFixed (prec : Nat) (q : ℚ) : String :=
  let sign := if q.num < 0 then "-" else ""
  let n : ℕ := (2 * q.num.natAbs * 10 ^ prec + q.den) / (2 * q.den)
  let ip := n / 10 ^ prec
  let fp := n % 10 ^ prec
  let fpStr := toString fp
  sign ++ toString ip ++ "." ++ String.mk (List.replicate (prec - fpStr.length) '0') ++ fpStr

/-- Substring test (`sub` occurs contiguously in `s`), used to state the
spec's "text containing ..." examples. -/
def containsSub (s sub : String) : Bool :=
  (List.range (s.data.length + 1)).any (fun i => ((s.data.drop i).take sub.data.length) == sub.data)

/-! ## Arithmetic tools (`streamlit_app.py` lines 36-56).
`division` raises `ValueError` when the denominator is zero; a raised Python
exception is embedded as `Except.error` carrying the exception message.
Python `/` on ints is exact float division, embedded as division in `ℚ`. -/

def addition (a b : ℤ) : ℤ := a + b

def multiply (a b : ℤ) : ℤ := a * b

def division (a b : ℤ) : Except String ℚ :=
  if b = 0 then .error "Denominator cannot be zero."
  else .ok ((a : ℚ) / (b : ℚ))

def substraction (a b : ℤ) : ℤ := a - b

/-- Names of the tools registered in the `tools` list
(`streamlit_app.py` lines 270-271); each langchain `@tool` takes the
decorated function's name, and `repl_tool` is explicitly named
`python_repl` (line 176). -/
def toolNames : List String :=
  ["addition", "multiply", "division", "substraction", "get_weather",
   "search_google", "search_duck", "python_repl", "youtube_search", "get_exchange_rate"]

/-- Dispatch of the four arithmetic tools by registered name: looks up the
name in the registry (`none` = unknown tool) and runs the implementation;
a raised exception surfaces as `Except.error`. -/
def dispatchArith (name : String) (a b : ℤ) : Option (Except String ℚ) :=
  if name = "addition" then some (.ok ((addition a b : ℤ) : ℚ))
  else if name = "multiply" then some (.ok ((multiply a b : ℤ) : ℚ))
  else if name = "substraction" then some (.ok ((substraction a b : ℤ) : ℚ))
  else if name = "division" then some (division a b)
  else none

/-! ## Web-search tools (`streamlit_app.py` lines 72-94).
External effects are supplied by a `SearchEnv`: the configured Serper
credential, and the outcomes of the Serper and DuckDuckGo calls (`Except.error`
= the call raised an exception; Serper raises on non-2xx responses as well). -/

structure SearchEnv where
  serper_api_key : Option String
  serperResult : String → Except String String
  duckResult : String → Except String String

/-- Python truthiness of an optional string credential
(`if serper_api_key:` / `if not api_key:`): `None` and `""` are falsy. -/
def truthyKey : Option String → Bool
  | none => false
  | some v => v != ""

def search_duck (env : SearchEnv) (query : String) : String :=
  match env.duckResult query with
  | .ok r => r
  | .error e => "Search unavailable. Error: " ++ e

def search_google (env : SearchEnv) (query : String) : String :=
  if truthyKey env.serper_api_key then
    match env.serperResult query with
    | .ok r => r
    | .error e => "Google search unavailable, trying alternative search. Error: " ++ e
  else
    search_duck env query

/-! ## Currency tool (`streamlit_app.py` lines 105-171).
The two HTTP endpoints are supplied by a `RateEnv`, keyed by the (normalized)
source currency that determines the request URL.  A `FetchOutcome` is either
an HTTP response, a `requests.exceptions.Timeout`, another
`requests.exceptions.RequestException`, or any other raised exception. -/

structure FreeApiData where
  rates : List (String × ℚ)
  date : Option String
  deriving DecidableEq

structure V6ApiData where
  result : Option String
  conversion_rates : List (String × ℚ)
  time_last_update_utc : Option String
  error_type : Option String
  deriving DecidableEq

inductive FetchOutcome (α : Type) where
  | response (status_code : Nat) (data : α)
  | timeout
  | requestError (msg : String)
  | otherError (msg : String)
  deriving DecidableEq

structure RateEnv where
  api_key : Option String
  freeFetch : String → FetchOutcome FreeApiData
  v6Fetch : String → FetchOutcome V6ApiData

/-- Python dict key lookup on the embedded rate mapping
(`to_currency in rates` / `rates[to_currency]`). -/
def lookupRate : List (String × ℚ) → String → Option ℚ
  | [], _ => none
  | (k, v) :: rest, key => if k = key then some v else lookupRate rest key

def get_exchange_rate (env : RateEnv) (fromCur toCur : String) : String :=
  let from_currency := normalizeCode fromCur
  let to_currency := normalizeCode toCur
  if truthyKey env.api_key = false then
    match env.freeFetch from_currency with
    | .response status_code data =>
      if status_code = 200 then
        match lookupRate data.rates to_currency with
        | some rate =>
          "Current exchange rate: 1 " ++ from_currency ++ " = " ++ fmtFixed 4 rate ++
            " " ++ to_currency ++ " (as of " ++ data.date.getD "today" ++ ")"
        | none => "Currency " ++ to_currency ++ " not found in exchange rates."
      else "Unable to fetch exchange rate. Please try again later."
    | .timeout => "Request timed out. Please try again later."
    | .requestError e => "Network error fetching exchange rate: " ++ e
    | .otherError e =>
      "Error fetching exchange rate: " ++ e ++
        ". Please try using search_google or search_duck as fallback."
  else -- credentialed branch
    match env.v6Fetch from_currency with
    | .response status_code data =>
      if status_code = 200 then
        if data.result = some "success" then
          match lookupRate data.conversion_rates to_currency with
          | some rate =>
            "Current exchange rate: 1 " ++ from_currency ++ " = " ++ fmtFixed 4 rate ++
              " " ++ to_currency ++ " (last updated: " ++ data.time_last_update_utc.getD "recent" ++
              "). Example: 100 " ++ from_currency ++ " = " ++ fmtFixed 2 (rate * 100) ++
              " " ++ to_currency
          | none =>
            "Currency " ++ to_currency ++
              " not found. Available currencies include: USD, EUR, GBP, INR, JPY, AUD, CAD, and many more."
        else "API returned error: " ++ data.error_type.getD "Unknown error"
      else
        "Unable to fetch exchange rate. Status code: " ++ toString status_code ++
          ". Please check your API key."
    | .timeout => "Request timed out. Please try again later."
    | .requestError e => "Network error fetching exchange rate: " ++ e
    | .otherError e =>
      "Error fetching exchange rate: " ++ e ++
        ". Please try using search_google or search_duck as fallback."

/-! ## Orchestration loop (`streamlit_app.py` lines 277-293, 442-444).
The langgraph `StateGraph` built in `initialize_travel_agent` has two nodes:
`llm_decision_step` (`function_1`, which prepends the system prompt and asks
the bound model) and `tools` (a `ToolNode` over the registry).  Edges:
START → llm_decision_step; llm_decision_step → `tools_condition` (to `tools`
when the response carries tool calls, END otherwise); tools →
llm_decision_step.  The compiled graph's runner bounds the number of
super-steps by its configurable `recursion_limit` (default 25) and raises
`GraphRecursionError` past it; that runner is embedded as the fuel-bounded
`runGraph`, with `RunStatus.recursionError` standing for the raised
`GraphRecursionError`.  The model backend and tool executor are environment
parameters. -/

inductive Role where
  | system | user | assistant | toolRole
  deriving DecidableEq

structure ToolCallReq where
  id : String
  name : String
  args : List (String × String)
  deriving DecidableEq

structure Msg where
  role : Role
  content : String
  tool_calls : List ToolCallReq
  tool_call_id : Option String
  deriving DecidableEq

/-- The fixed `SystemMessage` built at lines 224-267.  Its wording is opaque
to every claim (the spec scopes the prompt text out), so it is represented by
an abstract constant content. -/
def systemPromptMsg : Msg := ⟨.system, "SYSTEM_PROMPT", [], none⟩

def userMsg (q : String) : Msg := ⟨.user, q, [], none⟩

structure LoopEnv where
  llm : List Msg → Msg
  execTool : ToolCallReq → Except String String

/-- Embeds `function_1` (lines 277-281): prepends the system prompt to the state's
messages and invokes the tool-bound model.  Returns the exact message list
passed to the model together with the model's response, so runs can record
what each decision round saw. -/
def function_1 (env : LoopEnv) (state_messages : List Msg) : List Msg × Msg :=
  let input_question := systemPromptMsg :: state_messages
  (input_question, env.llm input_question)

/-- One `ToolMessage` produced by the `ToolNode` for one requested call; a
tool exception is converted by the node's default error handling into an
error-text message rather than propagating. -/
def toolNodeMsg (env : LoopEnv) (tc : ToolCallReq) : Msg :=
  match env.execTool tc with
  | .ok s => ⟨.toolRole, s, [], some tc.id⟩
  | .error e => ⟨.toolRole, "Error: " ++ e ++ "\n Please fix your mistakes.", [], some tc.id⟩

/-- Tool calls pending on the most recent message (what `tools_condition`
inspects and `ToolNode` executes). -/
def lastToolCalls (ms : List Msg) : List ToolCallReq :=
  match ms.getLast? with
  | some m => m.tool_calls
  | none => []

inductive NodeId where
  | llmStep | toolsNode
  deriving DecidableEq

inductive RunStatus where
  | done (messages : List Msg)
  | recursionError
  deriving DecidableEq

structure RunOut where
  status : RunStatus
  llmInputs : List (List Msg)
  steps : Nat
  deriving DecidableEq

/-- The compiled graph's runner: executes nodes from `node` on state `ms`
until `tools_condition` routes to END, spending one unit of fuel per
super-step; exhausted fuel is the runner's `GraphRecursionError`.
`acc` records the message list passed to the model at each decision round,
`steps` counts executed super-steps. -/
def runGraph (env : LoopEnv) : Nat → NodeId → List Msg → List (List Msg) → Nat → RunOut
  | 0, _, _, acc, steps => ⟨.recursionError, acc, steps⟩
  | Nat.succ fuel, .llmStep, ms, acc, steps =>
    let inp_resp := function_1 env ms
    let ms' := ms ++ [inp_resp.2]
    let acc' := acc ++ [inp_resp.1]
    if inp_resp.2.tool_calls = [] then ⟨.done ms', acc', steps + 1⟩
    else runGraph env fuel .toolsNode ms' acc' (steps + 1)
  | Nat.succ fuel, .toolsNode, ms, acc, steps =>
    runGraph env fuel .llmStep (ms ++ (lastToolCalls ms).map (toolNodeMsg env)) acc (steps + 1)

/-- Entry point: `main` (lines 442-444) invokes the compiled graph on
`{"messages": [HumanMessage(query)]}` with the runner's round limit. -/
def invokeAgent (env : LoopEnv) (limit : Nat) (q : String) : RunOut :=
  runGraph env limit .llmStep [userMsg q] [] 0

/-! # Claims -/

/-! ## C1: search fallback on primary failure -/

/-- Environment in which a Serper credential is configured, the Serper call
raises, and the DuckDuckGo call would succeed with a distinctive result. -/
def searchEnvC1 : SearchEnv :=
  ⟨some "key", fun _ => .error "boom", fun _ => .ok "duck result"⟩

/-- C1 counterexample: with a credential configured and the primary (Serper)
call raising an exception, `search_google` does NOT return `search_duck`'s
result for the same query — it returns its own error text instead, so the
claimed exception-triggered fallback does not happen. -/
theorem c1_counterexample :
    truthyKey searchEnvC1.serper_api_key = true ∧
    searchEnvC1.serperResult "paris hotels" = .error "boom" ∧
    search_duck searchEnvC1 "paris hotels" = "duck result" ∧
    search_google searchEnvC1 "paris hotels" ≠ search_duck searchEnvC1 "paris hotels" := by
  refine ⟨rfl, rfl, rfl, ?_⟩
  decide

/-- C1 (amended): when a Serper credential is configured and the primary call
fails with an exception, `search_google` returns the error text
`Google search unavailable, trying alternative search. Error: <e>` without
invoking `search_duck` (the returned text does not depend on the DuckDuckGo
call at all); `search_duck` substitutes only when no credential is
configured. -/
theorem c1_google_error_text (env : SearchEnv) (q e : String)
    (hk : truthyKey env.serper_api_key = true)
    (he : env.serperResult q = .error e) :
    search_google env q =
      "Google search unavailable, trying alternative search. Error: " ++ e := by
  simp [search_google, hk, he]

/-- C1 witness: the amended theorem applied in `searchEnvC1`. -/
theorem c1_google_error_text_witness :
    search_google searchEnvC1 "paris hotels" =
      "Google search unavailable, trying alternative search. Error: boom" :=
  c1_google_error_text searchEnvC1 "paris hotels" "boom" rfl rfl

/-! ## C2: division by zero -/

/-- C2 counterexample: dispatching `division` on `{a: 5, b: 0}` produces a
raised `ValueError` (embedded as `Except.error`), not an ok text/value
result: the claim that the division tool fails with a text result rather
than a raised exception is false at this input. -/
theorem c2_counterexample :
    dispatchArith "division" 5 0 = some (Except.error "Denominator cannot be zero.") := by
  rfl

/-- C2 (amended): for every pair of numbers with `b = 0`, the division tool
raises `ValueError("Denominator cannot be zero.")` — a raised exception with
a descriptive message, converted to an error text only outside the tool by
the graph's tool node, not a text result of the tool itself. -/
theorem c2_division_raises (a b : ℤ) (h : b = 0) :
    dispatchArith "division" a b = some (Except.error "Denominator cannot be zero.") := by
  subst h
  simp [dispatchArith, division]

/-- C2 witness: the amended theorem applied at `a = 5`, `b = 0`. -/
theorem c2_division_raises_witness :
    dispatchArith "division" 5 0 = some (Except.error "Denominator cannot be zero.") :=
  c2_division_raises 5 0 rfl

/-! ## C5: arithmetic tool registry -/

/-- C5 counterexample: no tool named `subtraction` is registered — the
source registers the misspelled `substraction` instead. -/
theorem c5_counterexample : ¬ ("subtraction" ∈ toolNames) := by decide

/-- C5 (amended): the registry provides tools named `addition`, `multiply`
and `substraction` (the source misspells "subtraction"), each pure
arithmetic on its two arguments (`a+b`, `a*b`, `a-b`), and dispatching
`addition` on `{a: 2, b: 3}` returns `5`. -/
theorem c5_arith_tools :
    "addition" ∈ toolNames ∧ "multiply" ∈ toolNames ∧ "substraction" ∈ toolNames ∧
    (∀ a b : ℤ, addition a b = a + b ∧ multiply a b = a * b ∧ substraction a b = a - b) ∧
    dispatchArith "addition" 2 3 = some (.ok 5) := by
  refine ⟨by decide, by decide, by decide, fun a b => ⟨rfl, rfl, rfl⟩, by rfl⟩

/-! ## C10: credential absence triggers the DuckDuckGo substitution -/

/-- C10: when no Serper credential is configured, `search_google` never
attempts the primary search (its result is independent of the Serper call
outcome) and returns exactly `search_duck`'s result for the same query. -/
theorem c10_no_credential_uses_duck (env : SearchEnv) (q : String)
    (hk : truthyKey env.serper_api_key = false) :
    search_google env q = search_duck env q ∧
    ∀ f : String → Except String String,
      search_google ⟨env.serper_api_key, f, env.duckResult⟩ q = search_duck env q := by
  constructor
  · simp [search_google, hk]
  · intro f
    simp [search_google, search_duck, hk]

/-- Environment with no Serper credential and a successful DuckDuckGo call. -/
def searchEnvC10 : SearchEnv :=
  ⟨none, fun _ => .error "never reached", fun _ => .ok "duck says hi"⟩

/-- C10 witness: the theorem applied in `searchEnvC10`. -/
theorem c10_no_credential_uses_duck_witness :
    search_google searchEnvC10 "goa beaches" = search_duck searchEnvC10 "goa beaches" :=
  (c10_no_credential_uses_duck searchEnvC10 "goa beaches" rfl).1

/-! ## C4: free-tier exchange-rate formatting -/

/-- C4: with no provider credential configured, a 200 free-tier response
whose rate mapping contains the target currency yields the text
`Current exchange rate: 1 FROM = rate TO (as of date)` with the rate
rendered to 4 decimal digits. -/
theorem c4_free_tier_format (env : RateEnv) (fromCur toCur date : String)
    (rates : List (String × ℚ)) (rate : ℚ)
    (hk : truthyKey env.api_key = false)
    (hresp : env.freeFetch (normalizeCode fromCur) = .response 200 ⟨rates, some date⟩)
    (hrate : lookupRate rates (normalizeCode toCur) = some rate) :
    get_exchange_rate env fromCur toCur =
      "Current exchange rate: 1 " ++ normalizeCode fromCur ++ " = " ++ fmtFixed 4 rate ++
        " " ++ normalizeCode toCur ++ " (as of " ++ date ++ ")" := by
  simp [get_exchange_rate, hk, hresp, hrate]

/-- Free-tier environment answering the spec's mocked response
`{"rates": {"USD": 0.012}, "date": "2024-01-01"}` for source `INR`. -/
def rateEnvC4 : RateEnv :=
  ⟨none,
   fun c => if c = "INR" then .response 200 ⟨[("USD", mkRat 12 1000)], some "2024-01-01"⟩
            else .timeout,
   fun _ => .timeout⟩

/-- C4 witness: the theorem applied in `rateEnvC4`; the produced text
contains `1 INR = 0.0120 USD` and `2024-01-01`. -/
theorem c4_free_tier_format_witness :
    get_exchange_rate rateEnvC4 "INR" "USD" =
      "Current exchange rate: 1 INR = 0.0120 USD (as of 2024-01-01)" ∧
    containsSub (get_exchange_rate rateEnvC4 "INR" "USD") "1 INR = 0.0120 USD" = true ∧
    containsSub (get_exchange_rate rateEnvC4 "INR" "USD") "2024-01-01" = true := by
  refine ⟨(c4_free_tier_format rateEnvC4 "INR" "USD" "2024-01-01"
    [("USD", mkRat 12 1000)] (mkRat 12 1000) rfl (by rfl) (by rfl)).trans (by rfl),
    by decide, by decide⟩

/-! ## C6: credentialed response lacking the target currency -/

/-- C6: with a credential configured, a 200 response with success flag set
whose `conversion_rates` mapping lacks the target currency yields text
explicitly stating the currency was not found. -/
theorem c6_credentialed_not_found (env : RateEnv) (fromCur toCur : String) (data : V6ApiData)
    (hk : truthyKey env.api_key = true)
    (hresp : env.v6Fetch (normalizeCode fromCur) = .response 200 data)
    (hsucc : data.result = some "success")
    (habs : lookupRate data.conversion_rates (normalizeCode toCur) = none) :
    get_exchange_rate env fromCur toCur =
      "Currency " ++ normalizeCode toCur ++
        " not found. Available currencies include: USD, EUR, GBP, INR, JPY, AUD, CAD, and many more." := by
  simp [get_exchange_rate, hk, hresp, hsucc, habs]

/-- Credentialed environment whose successful response lacks `XYZ` in
`conversion_rates`. -/
def rateEnvC6 : RateEnv :=
  ⟨some "k",
   fun _ => .timeout,
   fun c => if c = "USD" then
              .response 200 ⟨some "success", [("EUR", 1)], some "Fri, 01 Mar 2024 00:00:00 +0000", none⟩
            else .timeout⟩

/-- C6 witness: the theorem applied in `rateEnvC6` for `USD` → `XYZ`. -/
theorem c6_credentialed_not_found_witness :
    get_exchange_rate rateEnvC6 "USD" "XYZ" =
      "Currency XYZ not found. Available currencies include: USD, EUR, GBP, INR, JPY, AUD, CAD, and many more." ∧
    containsSub (get_exchange_rate rateEnvC6 "USD" "XYZ") "XYZ not found" = true := by
  refine ⟨(c6_credentialed_not_found rateEnvC6 "USD" "XYZ" _ rfl (by rfl) rfl (by rfl)).trans (by rfl),
    by decide⟩

/-! ## C7: transport failures of the credentialed request -/

theorem string_ne_of_head (s t : String) (h : s.data.head? ≠ t.data.head?) : s ≠ t :=
  fun he => h (by rw [he])

/-- C7: with a credential configured, a transport timeout yields the
"timed out" text, another network error yields the "network error" text,
any other failure yields the generic error text hinting at the search tools,
and the three texts are pairwise distinct; the tool returns text in every
case (it is a total function), so no exception escapes it. -/
theorem c7_transport_failures (env : RateEnv) (fromCur toCur : String)
    (hk : truthyKey env.api_key = true) :
    (env.v6Fetch (normalizeCode fromCur) = .timeout →
      get_exchange_rate env fromCur toCur = "Request timed out. Please try again later.") ∧
    (∀ e, env.v6Fetch (normalizeCode fromCur) = .requestError e →
      get_exchange_rate env fromCur toCur = "Network error fetching exchange rate: " ++ e) ∧
    (∀ e, env.v6Fetch (normalizeCode fromCur) = .otherError e →
      get_exchange_rate env fromCur toCur =
        "Error fetching exchange rate: " ++ e ++
          ". Please try using search_google or search_duck as fallback.") ∧
    (∀ e, ("Request timed out. Please try again later." : String) ≠
      "Network error fetching exchange rate: " ++ e) ∧
    (∀ e, ("Request timed out. Please try again later." : String) ≠
      "Error fetching exchange rate: " ++ e ++
        ". Please try using search_google or search_duck as fallback.") ∧
    (∀ e₁ e₂, ("Network error fetching exchange rate: " ++ e₁ : String) ≠
      "Error fetching exchange rate: " ++ e₂ ++
        ". Please try using search_google or search_duck as fallback.") := by
  refine ⟨?_, ?_, ?_, ?_, ?_, ?_⟩
  · intro h; simp [get_exchange_rate, hk, h]
  · intro e h; simp [get_exchange_rate, hk, h]
  · intro e h; simp [get_exchange_rate, hk, h]
  · intro e
    refine string_ne_of_head _ _ ?_
    have h1 : ("Request timed out. Please try again later." : String).data.head? = some 'R' := rfl
    have h2 : ("Network error fetching exchange rate: " ++ e).data.head? = some 'N' := rfl
    rw [h1, h2]; decide
  · intro e
    refine string_ne_of_head _ _ ?_
    have h1 : ("Request timed out. Please try again later." : String).data.head? = some 'R' := rfl
    have h2 : ("Error fetching exchange rate: " ++ e ++
      ". Please try using search_google or search_duck as fallback.").data.head? = some 'E' := rfl
    rw [h1, h2]; decide
  · intro e₁ e₂
    refine string_ne_of_head _ _ ?_
    have h1 : ("Network error fetching exchange rate: " ++ e₁).data.head? = some 'N' := rfl
    have h2 : ("Error fetching exchange rate: " ++ e₂ ++
      ". Please try using search_google or search_duck as fallback.").data.head? = some 'E' := rfl
    rw [h1, h2]; decide

/-- Credentialed environment whose request times out. -/
def rateEnvC7 : RateEnv := ⟨some "k", fun _ => .timeout, fun _ => .timeout⟩

/-- C7 witness: the theorem applied in `rateEnvC7` (timeout case). -/
theorem c7_transport_failures_witness :
    get_exchange_rate rateEnvC7 "USD" "INR" = "Request timed out. Please try again later." :=
  (c7_transport_failures rateEnvC7 "USD" "INR" rfl).1 rfl

/-! ## C8: invariance under case and surrounding whitespace -/

/-- C8: `get_exchange_rate`'s output is invariant under changing the case of
the input codes or adding leading/trailing whitespace: it equals the output
on the uppercase, whitespace-trimmed forms of both codes. -/
theorem c8_normalization_invariance (env : RateEnv) (a b : String) :
    get_exchange_rate env a b =
      get_exchange_rate env (normalizeCode a) (normalizeCode b) := by
  simp only [get_exchange_rate, normalizeCode_idem]

/-! ## C3: bounded orchestration loop -/

theorem runGraph_steps_le (env : LoopEnv) :
    ∀ (fuel : Nat) (node : NodeId) (ms : List Msg) (acc : List (List Msg)) (steps : Nat),
      (runGraph env fuel node ms acc steps).steps ≤ steps + fuel := by
  intro fuel
  induction fuel with
  | zero => intro node ms acc steps; simp [runGraph]
  | succ n ih =>
    intro node ms acc steps
    cases node with
    | llmStep =>
      simp only [runGraph]
      by_cases h : (function_1 env ms).2.tool_calls = []
      · rw [if_pos h]
        show steps + 1 ≤ steps + (n + 1)
        omega
      · rw [if_neg h]
        have := ih .toolsNode (ms ++ [(function_1 env ms).2])
          (acc ++ [(function_1 env ms).1]) (steps + 1)
        omega
    | toolsNode =>
      simp only [runGraph]
      have := ih .llmStep (ms ++ (lastToolCalls ms).map (toolNodeMsg env)) acc (steps + 1)
      omega

theorem runGraph_always_tools (env : LoopEnv)
    (hllm : ∀ conv, (env.llm conv).tool_calls ≠ []) :
    ∀ (fuel : Nat) (node : NodeId) (ms : List Msg) (acc : List (List Msg)) (steps : Nat),
      (runGraph env fuel node ms acc steps).status = .recursionError := by
  intro fuel
  induction fuel with
  | zero => intro node ms acc steps; simp [runGraph]
  | succ n ih =>
    intro node ms acc steps
    cases node with
    | llmStep =>
      simp only [runGraph]
      rw [if_neg (show (function_1 env ms).2.tool_calls ≠ [] from
        hllm (systemPromptMsg :: ms))]
      exact ih .toolsNode _ _ _
    | toolsNode =>
      simp only [runGraph]
      exact ih .llmStep _ _ _

/-- C3: for every backend environment, round limit and user query, the
orchestration loop executes at most `limit` super-steps — it never runs
unbounded — and when the model keeps requesting tool calls on every decision
round, the run ends in the runner's recursion failure (the raised
`GraphRecursionError`, the spec's `Failed` with `MaxRoundsExceeded`) rather
than looping forever. -/
theorem c3_loop_bounded (env : LoopEnv) (limit : Nat) (q : String) :
    (invokeAgent env limit q).steps ≤ limit ∧
    ((∀ conv, (env.llm conv).tool_calls ≠ []) →
      (invokeAgent env limit q).status = .recursionError) := by
  constructor
  · have h := runGraph_steps_le env limit .llmStep [userMsg q] [] 0
    simpa [invokeAgent] using h
  · intro hllm
    exact runGraph_always_tools env hllm limit .llmStep [userMsg q] [] 0

/-- Backend that requests a tool call on every decision round. -/
def loopEnvTools : LoopEnv :=
  ⟨fun _ => ⟨.assistant, "", [⟨"call1", "get_weather", [("city", "Goa")]⟩], none⟩,
   fun _ => .ok "sunny"⟩

/-- C3 witness: the theorem applied to `loopEnvTools` with round limit 6. -/
theorem c3_loop_bounded_witness :
    (invokeAgent loopEnvTools 6 "trip to Goa").steps ≤ 6 ∧
    (invokeAgent loopEnvTools 6 "trip to Goa").status = .recursionError :=
  ⟨(c3_loop_bounded loopEnvTools 6 "trip to Goa").1,
   (c3_loop_bounded loopEnvTools 6 "trip to Goa").2 (fun conv => by simp [loopEnvTools])⟩

/-! ## C9: the system instruction is prepended before every decide call -/

theorem runGraph_llmInputs_ext (env : LoopEnv) :
    ∀ (fuel : Nat) (node : NodeId) (ms : List Msg) (acc : List (List Msg)) (steps : Nat),
      ∃ tl, (runGraph env fuel node ms acc steps).llmInputs = acc ++ tl := by
  intro fuel
  induction fuel with
  | zero => intro node ms acc steps; exact ⟨[], by simp [runGraph]⟩
  | succ n ih =>
    intro node ms acc steps
    cases node with
    | llmStep =>
      simp only [runGraph]
      by_cases h : (function_1 env ms).2.tool_calls = []
      · exact ⟨[(function_1 env ms).1], by simp [h]⟩
      · rw [if_neg h]
        obtain ⟨tl, htl⟩ := ih .toolsNode (ms ++ [(function_1 env ms).2])
          (acc ++ [(function_1 env ms).1]) (steps + 1)
        exact ⟨(function_1 env ms).1 :: tl, by rw [htl]; simp⟩
    | toolsNode =>
      simp only [runGraph]
      exact ih .llmStep _ _ _

theorem runGraph_llmInputs_shape (env : LoopEnv) :
    ∀ (fuel : Nat) (node : NodeId) (ms : List Msg) (acc : List (List Msg)) (steps : Nat),
      ∀ inp ∈ (runGraph env fuel node ms acc steps).llmInputs,
        inp ∈ acc ∨ ∃ rest, inp = systemPromptMsg :: rest := by
  intro fuel
  induction fuel with
  | zero =>
    intro node ms acc steps inp hmem
    simp only [runGraph] at hmem
    exact Or.inl hmem
  | succ n ih =>
    intro node ms acc steps inp hmem
    cases node with
    | llmStep =>
      simp only [runGraph] at hmem
      by_cases h : (function_1 env ms).2.tool_calls = []
      · rw [if_pos h] at hmem
        simp only at hmem
        rcases List.mem_append.mp hmem with hin | hnew
        · exact Or.inl hin
        · right
          refine ⟨ms, ?_⟩
          simpa using hnew
      · rw [if_neg h] at hmem
        rcases ih .toolsNode (ms ++ [(function_1 env ms).2])
          (acc ++ [(function_1 env ms).1]) (steps + 1) inp hmem with hin | hs
        · rcases List.mem_append.mp hin with hin2 | hnew
          · exact Or.inl hin2
          · right
            refine ⟨ms, ?_⟩
            simpa using hnew
        · exact Or.inr hs
    | toolsNode =>
      simp only [runGraph] at hmem
      exact ih .llmStep _ _ _ inp hmem

/-- C9: in every run of the loop, each decision round passes the model the
fixed system instruction prepended to the conversation (every recorded model
input starts with the system message), and — for any positive round limit —
the first decision round sees exactly `[system instruction, user message]`. -/
theorem c9_system_prompt_prepended (env : LoopEnv) (limit : Nat) (q : String)
    (h : 0 < limit) :
    (invokeAgent env limit q).llmInputs.head? = some [systemPromptMsg, userMsg q] ∧
    ∀ inp ∈ (invokeAgent env limit q).llmInputs, ∃ rest, inp = systemPromptMsg :: rest := by
  constructor
  · obtain ⟨n, rfl⟩ : ∃ n, limit = n + 1 :=
      ⟨limit - 1, by omega⟩
    unfold invokeAgent
    simp only [runGraph]
    by_cases hc : (function_1 env [userMsg q]).2.tool_calls = []
    · rw [if_pos hc]
      rfl
    · rw [if_neg hc]
      obtain ⟨tl, htl⟩ := runGraph_llmInputs_ext env n .toolsNode
        ([userMsg q] ++ [(function_1 env [userMsg q]).2])
        ([] ++ [(function_1 env [userMsg q]).1]) 1
      rw [htl]
      rfl
  · intro inp hmem
    rcases runGraph_llmInputs_shape env limit .llmStep [userMsg q] [] 0 inp hmem with hin | hs
    · exact absurd hin (List.not_mem_nil inp)
    · exact hs

/-- Backend that answers directly with no tool calls. -/
def loopEnvFinal : LoopEnv :=
  ⟨fun _ => ⟨.assistant, "Here is your plan.", [], none⟩, fun _ => .ok "unused"⟩

/-- C9 witness: the theorem applied to `loopEnvFinal` with the runner's
default round limit 25. -/
theorem c9_system_prompt_prepended_witness :
    (invokeAgent loopEnvFinal 25 "plan a trip").llmInputs.head? =
      some [systemPromptMsg, userMsg "plan a trip"] :=
  (c9_system_prompt_prepended loopEnvFinal 25 "plan a trip" (by decide)).1
